import Mathlib

/-!
Verification of the Adventure player activity state machine.

Shallow embedding of `src/utils/objects.py` (classes `Map`, `Player`, enum
`Status`) together with the Redis timer-store state the Player methods read
and write.  Python numbers are modelled as `Rat`, machine/store values as
strings (the code only ever stores `str(...)` values), and Python `None`
as `Option`.  Every method is embedded as a pure state transformer
`GState → Except Err α × GState`: the returned state is produced even when
the method raises, matching Python exception semantics.

The map registry (`bot.map_manager`) is not part of the two source files;
its `get_map` / `resolve_map` operations are modelled from the spec where
noted.
-/

deriving instance DecidableEq for Except

namespace Adventure

/-- Python values as they flow between the Redis layer and the code:
`None`, an `int`, or a `str` (the decoded form of the stored bytes). -/
inductive PyVal where
  | pynone : PyVal
  | pyint : Int → PyVal
  | pystr : String → PyVal
deriving DecidableEq

/-- CPython `==` between such values: `int`/`str` compare by value inside a
type; a comparison across types (e.g. the string `"2"` against the int `2`)
is `False`. -/
def PyVal.pyEq : PyVal → PyVal → Bool
  | .pyint a, .pyint b => a == b
  | .pystr a, .pystr b => a == b
  | .pynone, .pynone => true
  | _, _ => false

/-- Python `int(...)` applied to a (rational-modelled) number: truncation
toward zero. -/
def pyInt (q : Rat) : Int := if 0 ≤ q then ⌊q⌋ else ⌈q⌉

/-- The `Status` enum of `objects.py`: `idle = 0`, `travelling = 1`,
`exploring = 2`. -/
inductive Status where
  | idle : Status
  | travelling : Status
  | exploring : Status
deriving DecidableEq

/-- The `Map` value object (`objects.py` lines 24-57).  The `nearby`
adjacency list and `_raw` cache are untouched by every operation modelled
here and are omitted. -/
structure MapV where
  id : Int
  name : String
  density : Rat
  description : String
deriving DecidableEq

/-- Embeds `Map.__eq__` (lines 42-43) between two `Map` objects: the
`isinstance` test holds, so the result is `other.id == self.id`. -/
def MapV.pyEq (self other : MapV) : Bool := other.id == self.id

/-- Embeds `Map.calculate_travel_to` (lines 51-54): `(self.density +
other.density) / 1234` hours.  The `isinstance` guard never fires for a
`Map` argument. -/
def MapV.calculate_travel_to (self other : MapV) : Rat :=
  (self.density + other.density) / 1234

/-- Embeds `Map.calculate_explore` (lines 56-57): `(self.density * 1234) /
(1000 ** 2)` hours. -/
def MapV.calculate_explore (self : MapV) : Rat :=
  (self.density * 1234) / (1000 ^ 2)

/-- CPython data-model rule: a class that defines `__eq__` without also
defining `__hash__` has `__hash__` set to `None`, so its instances are
unhashable (unusable as set members or dict keys). -/
def pyClassHashable (definesEq definesHash : Bool) : Bool :=
  !definesEq || definesHash

/-- The class `Map` defines `__eq__` (lines 42-43). -/
def mapDefinesEq : Bool := true

/-- The class `Map` defines no `__hash__` anywhere in its body (lines 24-57). -/
def mapDefinesHash : Bool := false

/-- Python `x in lst` over a list of `Map`s (line 178): membership through
`Map.__eq__`; when `x` is `None` every element comparison is `False`
because the `isinstance` test fails. -/
def pyListContains (l : List MapV) (x : Option MapV) : Bool :=
  match x with
  | none => false
  | some m => l.any (fun v => v.pyEq m)

/-- An argument to the map registry: a `Map`, a numeric id, a
string-encoded id read back from the store, or `None`. -/
inductive MapRef where
  | byMap : MapV → MapRef
  | byId : Int → MapRef
  | byStr : String → MapRef
  | byNone : MapRef

/-- Modelled from the spec: `MapGraph.get_map(id) -> Map | not-found`
("lookup by numeric id") and `resolve(value: Map | id) -> Map`
("normalizes either form") are part of the map registry, which is not
under `src/`.  A `Map` normalizes to itself, ids are looked up in the
graph, string-encoded ids from the store are parsed first, and `None`
matches nothing. -/
def get_map (graph : List MapV) : MapRef → Option MapV
  | .byMap m => some m
  | .byId n => graph.find? (fun m => m.id == n)
  | .byStr s => s.toInt?.bind (fun n => graph.find? (fun m => m.id == n))
  | .byNone => none

/-- Modelled from the spec: `resolve` performs the same normalization as
`get_map` but fails with `UnknownMapError` when there is no match (the
failure is rendered by the caller through the `map` property setter). -/
def resolve_map (graph : List MapV) (r : MapRef) : Option MapV :=
  get_map graph r

/-- The four timer-store keys of one owner (`travelling_{id}`,
`exploring_{id}`, `next_map_{id}`, `status_{id}`).  The two activity keys
are always written with an expiry and carry `(value, remaining seconds)`;
Redis removes an expired key, so `none` models absent-or-expired.  The
other two keys are plain values. -/
structure Redis where
  travelling : Option (String × Int)
  exploring : Option (String × Int)
  next_map : Option String
  status : Option String
deriving DecidableEq

/-- Redis `TTL` on an activity key: remaining seconds when the key is
live, `-2` when it is absent. -/
def ttlQ : Option (String × Int) → Int
  | none => -2
  | some p => p.2

/-- Redis `GET` result as a Python value. -/
def pyOfKey : Option String → PyVal
  | none => .pynone
  | some s => .pystr s

/-- Redis `GET` result as a map-registry argument. -/
def mapRefOfKey : Option String → MapRef
  | none => .byNone
  | some s => .byStr s

/-- The mutable `Player` fields touched by the activity state machine
(`objects.py` lines 60-186): `_map` (through the `map` property),
`_next_map`, `status` and `_explored_maps` (a Python list), plus the
`name` carried into error messages.  `owner`, `created_at` and the bot
handle are identity/plumbing and never change. -/
structure PlayerS where
  name : String
  map : Option MapV
  next_map : Option MapV
  status : Status
  explored_maps : List MapV
deriving DecidableEq

/-- The state one Player method can observe and mutate: the in-memory
`Player` and the owner's four store keys. -/
structure GState where
  player : PlayerS
  redis : Redis
deriving DecidableEq

/-- Errors raised by the embedded methods.  `alreadyTravelling` carries
the player's name and the remaining seconds that feed the human-readable
`humanize.naturaltime` estimate; `alreadyExplored` carries the map;
`unknownMap` is the registry's resolution failure surfaced through the
`map` setter; `attributeError` models calling a method on `None`. -/
inductive Err where
  | alreadyTravelling : String → Int → Err
  | alreadyExplored : MapV → Err
  | unknownMap : Err
  | attributeError : Err
deriving DecidableEq

/-- Embeds `Player.travel_time` (lines 140-143): when `self.map` is falsy it is
first restored through the `map` setter from the `next_map` key (a
resolution failure raises), then the TTL of the `travelling` key is
returned. -/
def travel_time (graph : List MapV) (s : GState) : Except Err Int × GState :=
  match s.player.map with
  | some _ => (.ok (ttlQ s.redis.travelling), s)
  | none =>
    match resolve_map graph (mapRefOfKey s.redis.next_map) with
    | some m =>
      (.ok (ttlQ s.redis.travelling),
       { s with player := { s.player with map := some m } })
    | none => (.error .unknownMap, s)

/-- Embeds `Player.explore_time` (lines 145-146): the TTL of the `exploring`
key. -/
def explore_time (s : GState) : Except Err Int × GState :=
  (.ok (ttlQ s.redis.exploring), s)

/-- Embeds `Player.is_travelling` (lines 101-102): `travel_time() > 0`. -/
def is_travelling (graph : List MapV) (s : GState) : Except Err Bool × GState :=
  match travel_time graph s with
  | (.ok t, s1) => (.ok (decide (0 < t)), s1)
  | (.error e, s1) => (.error e, s1)

/-- Embeds `Player.is_exploring` (lines 104-105): `explore_time() > 0`. -/
def is_exploring (s : GState) : Except Err Bool × GState :=
  match explore_time s with
  | (.ok t, s1) => (.ok (decide (0 < t)), s1)
  | (.error e, s1) => (.error e, s1)

/-- Embeds `Player.update_travelling` (lines 109-128).  The leading
`asyncio.sleep(1)` is a suspension, not a state change, and is outside
this static model.  While the TTL is still positive a lost in-memory
`_next_map` is restored from the `next_map` key via `get_map` (not-found
yields `None`, no raise).  Once the TTL is gone, the destination is the
in-memory `_next_map`'s id, else the raw `next_map` key value; a `None`
destination means the player is not travelling at all.  Otherwise
`_next_map` is cleared, `map` is assigned through the setter
(`resolve_map`, may raise), the `next_map` key is deleted, the `status`
key is set to `"0"` and the in-memory status to idle, and `True` is
returned. -/
def update_travelling (graph : List MapV) (s : GState) :
    Except Err (Option Bool) × GState :=
  match is_travelling graph s with
  | (.error e, s1) => (.error e, s1)
  | (.ok true, s1) =>
    match s1.player.next_map with
    | none =>
      (.ok none,
       { s1 with player :=
          { s1.player with
              next_map := get_map graph (mapRefOfKey s1.redis.next_map) } })
    | some _ => (.ok none, s1)
  | (.ok false, s1) =>
    let dest : MapRef :=
      match s1.player.next_map with
      | none => mapRefOfKey s1.redis.next_map
      | some m => .byId m.id
    match dest with
    | .byNone => (.ok none, s1)
    | d =>
      let s2 := { s1 with player := { s1.player with next_map := none } }
      match resolve_map graph d with
      | none => (.error .unknownMap, s2)
      | some m2 =>
        (.ok (some true),
         { player :=
            { s2.player with map := some m2, status := .idle },
           redis :=
            { s2.redis with next_map := none, status := some "0" } })

/-- Embeds `Player.update_exploring` (lines 130-138).  If the explore TTL is
still positive nothing happens.  Otherwise, when the in-memory status is
`exploring` or the stored `status` value equals the int `2` (a CPython
cross-type comparison of a string against an int, hence never true), the
`status` key is set to `"0"`, the in-memory status to idle, and `True` is
returned. -/
def update_exploring (s : GState) : Except Err (Option Bool) × GState :=
  if 0 < ttlQ s.redis.exploring then (.ok none, s)
  else if s.player.status == .exploring
      || PyVal.pyEq (pyOfKey s.redis.status) (.pyint 2) then
    (.ok (some true),
     { s with
        player := { s.player with status := .idle },
        redis := { s.redis with status := some "0" } })
  else (.ok none, s)

/-- Embeds `Player.travel_to` (lines 150-167).  A positive travel TTL raises
`AlreadyTravelling` with the player's name and the remaining travel
seconds (re-queried); a positive explore TTL raises the same error with
the remaining explore seconds.  Otherwise the duration is
`int(calculate_travel_to(destination) * 3600)` seconds; `_next_map` is
set, the `travelling` key is written with that value and expiry, the
`next_map` key is set to `str(destination.id)`, the `status` key to
`"1"`, and the in-memory status to `travelling`. -/
def travel_to (graph : List MapV) (destination : MapV) (s : GState) :
    Except Err Unit × GState :=
  match is_travelling graph s with
  | (.error e, s1) => (.error e, s1)
  | (.ok true, s1) =>
    match travel_time graph s1 with
    | (.ok t, s2) => (.error (.alreadyTravelling s2.player.name t), s2)
    | (.error e, s2) => (.error e, s2)
  | (.ok false, s1) =>
    match is_exploring s1 with
    | (.error e, s2) => (.error e, s2)
    | (.ok true, s2) =>
      match explore_time s2 with
      | (.ok t, s3) => (.error (.alreadyTravelling s3.player.name t), s3)
      | (.error e, s3) => (.error e, s3)
    | (.ok false, s2) =>
      match s2.player.map with
      | none => (.error .attributeError, s2)
      | some m =>
        let time := pyInt (m.calculate_travel_to destination * 3600)
        (.ok (),
         { player :=
            { s2.player with
                next_map := some destination, status := .travelling },
           redis :=
            { s2.redis with
                travelling := some (toString time, time),
                next_map := some (toString destination.id),
                status := some "1" } })

/-- Embeds `Player.explore` (lines 169-186).  The two busy guards mirror
`travel_to`.  Then `self.map in self._explored_maps` (through
`Map.__eq__`) raises `AlreadyExplored(self.map)`.  Otherwise the duration
is `int(calculate_explore() * 3600)` seconds; the `exploring` key is
written with that value and expiry, the `status` key is set to `"2"`, the
in-memory status to `exploring`, and — at the start of the activity, as
its last step — the current map is appended to `_explored_maps`. -/
def explore (graph : List MapV) (s : GState) : Except Err Unit × GState :=
  match is_travelling graph s with
  | (.error e, s1) => (.error e, s1)
  | (.ok true, s1) =>
    match travel_time graph s1 with
    | (.ok t, s2) => (.error (.alreadyTravelling s2.player.name t), s2)
    | (.error e, s2) => (.error e, s2)
  | (.ok false, s1) =>
    match is_exploring s1 with
    | (.error e, s2) => (.error e, s2)
    | (.ok true, s2) =>
      match explore_time s2 with
      | (.ok t, s3) => (.error (.alreadyTravelling s3.player.name t), s3)
      | (.error e, s3) => (.error e, s3)
    | (.ok false, s2) =>
      if pyListContains s2.player.explored_maps s2.player.map then
        match s2.player.map with
        | some m => (.error (.alreadyExplored m), s2)
        | none => (.error .attributeError, s2)
      else
        match s2.player.map with
        | none => (.error .attributeError, s2)
        | some m =>
          let time := pyInt (m.calculate_explore * 3600)
          (.ok (),
           { player :=
              { s2.player with
                  status := .exploring,
                  explored_maps := s2.player.explored_maps ++ [m] },
             redis :=
              { s2.redis with
                  exploring := some (toString time, time),
                  status := some "2" } })

/-! ## Concrete fixtures

A two-node map graph matching the spec's reference scenario: the starting
map (id 0, density 10) and its neighbour (id 1, density 20), and a handful
of player/store states reachable in the scenarios of the spec. -/

def map0 : MapV := { id := 0, name := "Map 0", density := 10, description := "start" }

def map1 : MapV := { id := 1, name := "Map 1", density := 20, description := "dest" }

def demoGraph : List MapV := [map0, map1]

/-- Idle player at the starting map, no keys set (Scenario A start). -/
def stateIdleStart : GState :=
  { player := { name := "Hiko", map := some map0, next_map := none,
                status := .idle, explored_maps := [map0] },
    redis := { travelling := none, exploring := none,
               next_map := none, status := none } }

/-- Idle player standing on map 1, which is not yet explored (Scenario B
start). -/
def stateIdleAtMap1 : GState :=
  { player := { name := "Hiko", map := some map1, next_map := none,
                status := .idle, explored_maps := [map0] },
    redis := { travelling := none, exploring := none,
               next_map := none, status := none } }

/-- Player mid-travel: the travelling key still has 50 seconds to run. -/
def stateBusyTravel : GState :=
  { player := { name := "Hiko", map := some map0, next_map := some map1,
                status := .travelling, explored_maps := [map0] },
    redis := { travelling := some ("87", 50), exploring := none,
               next_map := some "1", status := some "1" } }

/-- Player whose travel timer has expired with the destination still held
in memory (and mirrored in the `next_map` key), awaiting resolution. -/
def stateTravelArrived : GState :=
  { player := { name := "Hiko", map := some map0, next_map := some map1,
                status := .travelling, explored_maps := [map0] },
    redis := { travelling := none, exploring := none,
               next_map := some "1", status := some "1" } }

/-- Player mid-explore on map 1: the exploring key still has 88 seconds to
run, and map 1 is already in `explored_maps` because `explore()` appended
it when the activity started. -/
def stateBusyExplore : GState :=
  { player := { name := "Hiko", map := some map1, next_map := none,
                status := .exploring, explored_maps := [map0, map1] },
    redis := { travelling := none, exploring := some ("88", 88),
               next_map := none, status := some "2" } }

/-- Player whose explore timer has expired, awaiting resolution.  The
explored list does not yet contain map 1 (the in-memory list was reloaded
from the durable row after a restart), which makes the two candidate
"mark explored" moments distinguishable. -/
def stateExploreDone : GState :=
  { player := { name := "Hiko", map := some map1, next_map := none,
                status := .exploring, explored_maps := [map0] },
    redis := { travelling := none, exploring := none,
               next_map := none, status := some "2" } }

/-! ## Helper lemmas -/

theorem travel_time_of_map_some {g : List MapV} {s : GState} {m : MapV}
    (h : s.player.map = some m) :
    travel_time g s = (.ok (ttlQ s.redis.travelling), s) := by
  unfold travel_time
  rw [h]

theorem is_travelling_of_map_some {g : List MapV} {s : GState} {m : MapV}
    (h : s.player.map = some m) :
    is_travelling g s = (.ok (decide (0 < ttlQ s.redis.travelling)), s) := by
  unfold is_travelling
  rw [travel_time_of_map_some h]

theorem is_exploring_eq (s : GState) :
    is_exploring s = (.ok (decide (0 < ttlQ s.redis.exploring)), s) := rfl

/-! ## Claim theorems -/

theorem travel_to_success (g : List MapV) (s : GState) (m dest : MapV)
    (hm : s.player.map = some m)
    (htr : ttlQ s.redis.travelling ≤ 0)
    (hex : ttlQ s.redis.exploring ≤ 0) :
    travel_to g dest s =
      (.ok (),
       { player :=
          { s.player with
              next_map := some dest,
              status := .travelling },
         redis :=
          { s.redis with
              travelling :=
                some (toString (pyInt (m.calculate_travel_to dest * 3600)),
                      pyInt (m.calculate_travel_to dest * 3600)),
              next_map := some (toString dest.id),
              status := some "1" } }) := by
  simp only [travel_to, is_travelling, travel_time, is_exploring,
             explore_time, hm, decide_eq_false (not_lt.mpr htr),
             decide_eq_false (not_lt.mpr hex)]

theorem explore_success (g : List MapV) (s : GState) (m : MapV)
    (hm : s.player.map = some m)
    (htr : ttlQ s.redis.travelling ≤ 0)
    (hex : ttlQ s.redis.exploring ≤ 0)
    (hexp : pyListContains s.player.explored_maps (some m) = false) :
    explore g s =
      (.ok (),
       { player :=
          { s.player with
              status := .exploring,
              explored_maps := s.player.explored_maps ++ [m] },
         redis :=
          { s.redis with
              exploring :=
                some (toString (pyInt (m.calculate_explore * 3600)),
                      pyInt (m.calculate_explore * 3600)),
              status := some "2" } }) := by
  simp only [explore, is_travelling, travel_time, is_exploring, explore_time,
             hm, hexp, decide_eq_false (not_lt.mpr htr),
             decide_eq_false (not_lt.mpr hex)]
  simp [hm]

/-- Claim C3: a `travel_to` call made while the travel timer is still
active (any destination) fails with the busy error
(`AlreadyTravelling`) carrying the player's name and the remaining
seconds (which feed the human-readable estimate), and leaves the whole
player/store state exactly unchanged.  The `map = some m` hypothesis is
the constructor invariant: every `Player` is seeded with a graph map. -/
theorem C3_travel_to_busy (g : List MapV) (s : GState) (m dest : MapV)
    (v : String) (t : Int)
    (hm : s.player.map = some m)
    (htr : s.redis.travelling = some (v, t))
    (ht : 0 < t) :
    travel_to g dest s = (.error (.alreadyTravelling s.player.name t), s) := by
  simp only [travel_to, is_travelling, travel_time, hm, htr, ttlQ,
             decide_eq_true ht]

theorem C3_travel_to_busy_witness :
    travel_to demoGraph map1 stateBusyTravel =
      (.error (.alreadyTravelling "Hiko" 50), stateBusyTravel) :=
  C3_travel_to_busy demoGraph stateBusyTravel map0 map1 "87" 50 rfl rfl (by decide)

/-- Claim C7: for a player whose `map` field is set (true of every
constructed `Player`, which is seeded with the graph's starting map),
`is_travelling` and `is_exploring` return exactly whether the
corresponding key's TTL is positive and change no player field and no
store key.  (When `map` is lost, `travel_time` first restores it from the
`next_map` key, which is why the hypothesis is needed.) -/
theorem C7_pure_queries (g : List MapV) (s : GState) (m : MapV)
    (hm : s.player.map = some m) :
    is_travelling g s = (.ok (decide (0 < ttlQ s.redis.travelling)), s) ∧
    is_exploring s = (.ok (decide (0 < ttlQ s.redis.exploring)), s) :=
  ⟨is_travelling_of_map_some hm, is_exploring_eq s⟩

theorem C7_pure_queries_witness :
    is_travelling demoGraph stateBusyTravel =
      (.ok (decide (0 < ttlQ stateBusyTravel.redis.travelling)), stateBusyTravel) ∧
    is_exploring stateBusyTravel =
      (.ok (decide (0 < ttlQ stateBusyTravel.redis.exploring)), stateBusyTravel) :=
  C7_pure_queries demoGraph stateBusyTravel map0 rfl

/-- Claim C4: a second `explore()` while the first explore's timer is
still active fails with the busy error `AlreadyTravelling` (the name the
code reuses for "already busy"), carrying the player's name and the
remaining explore seconds — not with `AlreadyExplored` — even though the
current map is already in `explored_maps` (it was appended when the first
explore started). -/
theorem C4_second_explore_busy (g : List MapV) (s : GState) (m : MapV)
    (v : String) (t : Int)
    (hm : s.player.map = some m)
    (htr : s.redis.travelling = none)
    (hex : s.redis.exploring = some (v, t))
    (ht : 0 < t)
    (_hexp : pyListContains s.player.explored_maps (some m) = true) :
    explore g s = (.error (.alreadyTravelling s.player.name t), s) ∧
    ∀ m2 : MapV, (explore g s).1 ≠ .error (.alreadyExplored m2) := by
  have hmain : explore g s = (.error (.alreadyTravelling s.player.name t), s) := by
    simp only [explore, is_travelling, travel_time, is_exploring, explore_time,
               hm, htr, hex, ttlQ, decide_eq_true ht,
               show decide ((0:Int) < -2) = false from rfl]
  refine ⟨hmain, ?_⟩
  intro m2
  rw [hmain]
  simp

theorem C4_second_explore_busy_witness :
    explore demoGraph stateBusyExplore =
      (.error (.alreadyTravelling "Hiko" 88), stateBusyExplore) ∧
    ∀ m2 : MapV,
      (explore demoGraph stateBusyExplore).1 ≠ .error (.alreadyExplored m2) :=
  C4_second_explore_busy demoGraph stateBusyExplore map1 "88" 88
    rfl rfl rfl (by decide) (by decide)

/-- Claim C5 (counterexample): with map 1 already in `explored_maps` and
the explore timer still active, `explore()` fails with the busy error
`AlreadyTravelling`, not with `AlreadyExplored` — the busy guards run
before the explored-set guard, so "regardless of current timer state" is
false. -/
theorem C5_busy_counterexample :
    pyListContains stateBusyExplore.player.explored_maps (some map1) = true ∧
    ttlQ stateBusyExplore.redis.exploring = 88 ∧
    (explore demoGraph stateBusyExplore).1 =
      .error (.alreadyTravelling "Hiko" 88) ∧
    (explore demoGraph stateBusyExplore).1 ≠ .error (.alreadyExplored map1) := by
  refine ⟨by decide, by decide, by decide, by decide⟩

/-- Claim C5 (amended): `explore()` on a map already in `explored_maps`
fails with `AlreadyExplored` (and changes nothing) provided neither the
travel nor the explore timer is active; with an active timer the busy
error wins instead. -/
theorem C5_already_explored_when_idle (g : List MapV) (s : GState) (m : MapV)
    (hm : s.player.map = some m)
    (htr : ttlQ s.redis.travelling ≤ 0)
    (hex : ttlQ s.redis.exploring ≤ 0)
    (hexp : pyListContains s.player.explored_maps (some m) = true) :
    explore g s = (.error (.alreadyExplored m), s) := by
  simp only [explore, is_travelling, travel_time, is_exploring, explore_time,
             hm, hexp, decide_eq_false (not_lt.mpr htr),
             decide_eq_false (not_lt.mpr hex), if_true]

theorem C5_already_explored_witness :
    explore demoGraph
      { player := { name := "Hiko", map := some map1, next_map := none,
                    status := .idle, explored_maps := [map0, map1] },
        redis := { travelling := none, exploring := none,
                   next_map := none, status := some "0" } } =
      (.error (.alreadyExplored map1),
       { player := { name := "Hiko", map := some map1, next_map := none,
                     status := .idle, explored_maps := [map0, map1] },
         redis := { travelling := none, exploring := none,
                    next_map := none, status := some "0" } }) :=
  C5_already_explored_when_idle demoGraph _ map1 rfl (by decide) (by decide) (by decide)

/-- Claim C1 (counterexample): a player with an expired travel timer
(the travelling key is absent, TTL query -2) and a pending in-memory
destination is resolved by one `update_travelling` call — but the status
key is not cleared: it is overwritten with `"0"`, so it is still present
afterwards.  The claim's "clears ... the status key" is false. -/
theorem C1_status_key_counterexample :
    ttlQ stateTravelArrived.redis.travelling ≤ 0 ∧
    stateTravelArrived.player.next_map = some map1 ∧
    (update_travelling demoGraph stateTravelArrived).1 = .ok (some true) ∧
    (update_travelling demoGraph stateTravelArrived).2.redis.status = some "0" ∧
    (update_travelling demoGraph stateTravelArrived).2.redis.status ≠ none := by
  refine ⟨by decide, by decide, by decide, by decide, by decide⟩

/-- Claim C1 (amended): for a player whose `map` field is set, whose
travelling key is absent (an expired key is removed by the store, so
TTL ≤ 0 means absent), and which has a pending destination that resolves
in the graph — the in-memory `next_map` if present, else the `next_map`
store key — one `update_travelling` call returns `True`, sets `map` to
the resolved destination, clears the in-memory `next_map` and deletes the
`next_map` key, leaves the travelling key absent, sets the status key to
`"0"` (overwriting, not deleting it), and sets the in-memory status to
idle. -/
theorem C1_update_travelling_resolves (g : List MapV) (s : GState)
    (mcur : MapV)
    (hm : s.player.map = some mcur)
    (htr : s.redis.travelling = none) :
    (∀ mnext m2 : MapV, s.player.next_map = some mnext →
      resolve_map g (.byId mnext.id) = some m2 →
      update_travelling g s =
        (.ok (some true),
         { player :=
            { s.player with
                map := some m2,
                next_map := none,
                status := .idle },
           redis :=
            { s.redis with
                next_map := none,
                status := some "0" } })) ∧
    (∀ (v : String) (m2 : MapV), s.player.next_map = none →
      s.redis.next_map = some v →
      resolve_map g (.byStr v) = some m2 →
      update_travelling g s =
        (.ok (some true),
         { player :=
            { s.player with
                map := some m2,
                next_map := none,
                status := .idle },
           redis :=
            { s.redis with
                next_map := none,
                status := some "0" } })) := by
  constructor
  · intro mnext m2 hnext hres
    simp only [update_travelling, is_travelling, travel_time, hm, htr, hnext,
               hres, ttlQ, show decide ((0:Int) < -2) = false from rfl]
  · intro v m2 hnext hkey hres
    simp only [update_travelling, is_travelling, travel_time, hm, htr, hnext,
               hkey, mapRefOfKey, hres, ttlQ,
               show decide ((0:Int) < -2) = false from rfl]

theorem C1_update_travelling_resolves_witness :
    update_travelling demoGraph stateTravelArrived =
      (.ok (some true),
       { player := { name := "Hiko", map := some map1, next_map := none,
                     status := .idle, explored_maps := [map0] },
         redis := { travelling := none, exploring := none,
                    next_map := none, status := some "0" } }) :=
  (C1_update_travelling_resolves demoGraph stateTravelArrived map0
    rfl rfl).1 map1 map1 rfl (by decide)

/-- Claim C2 (counterexample): a player in status Exploring whose explore
timer has expired and whose `explored_maps` does not yet contain the
current map (its in-memory list was reloaded from the durable row) is
resolved by one `update_exploring` call — but the current map is NOT
added to `explored_maps` (the code appends it when `explore()` starts,
not at completion), and the status key is overwritten with `"0"`, not
cleared. -/
theorem C2_explored_at_start_counterexample :
    stateExploreDone.player.status = .exploring ∧
    ttlQ stateExploreDone.redis.exploring ≤ 0 ∧
    (update_exploring stateExploreDone).1 = .ok (some true) ∧
    (update_exploring stateExploreDone).2.player.status = .idle ∧
    pyListContains (update_exploring stateExploreDone).2.player.explored_maps
      (some map1) = false ∧
    (update_exploring stateExploreDone).2.redis.status ≠ none := by
  refine ⟨by decide, by decide, by decide, by decide, by decide, by decide⟩

/-- Claim C2 (amended): when the explore timer has expired (TTL ≤ 0) and
the in-memory status is Exploring, one `update_exploring` call returns
`True`, sets the status key to `"0"` and the in-memory status to idle,
and changes nothing else — in particular `explored_maps` is untouched,
because the current map was already appended to it when `explore()`
started (second conjunct: a successful `explore` ends with the current
map appended). -/
theorem C2_update_exploring_resolves (s : GState) :
    (ttlQ s.redis.exploring ≤ 0 → s.player.status = .exploring →
      update_exploring s =
        (.ok (some true),
         { s with
             player := { s.player with status := .idle },
             redis := { s.redis with status := some "0" } })) ∧
    (∀ (g : List MapV) (m : MapV), s.player.map = some m →
      ttlQ s.redis.travelling ≤ 0 → ttlQ s.redis.exploring ≤ 0 →
      pyListContains s.player.explored_maps (some m) = false →
      (explore g s).2.player.explored_maps =
        s.player.explored_maps ++ [m]) := by
  constructor
  · intro hex hst
    simp only [update_exploring, if_neg (not_lt.mpr hex), hst]
    simp
  · intro g m hm htr hex hexp
    rw [explore_success g s m hm htr hex hexp]

theorem C2_update_exploring_resolves_witness :
    update_exploring stateExploreDone =
      (.ok (some true),
       { player := { name := "Hiko", map := some map1, next_map := none,
                     status := .idle, explored_maps := [map0] },
         redis := { travelling := none, exploring := none,
                    next_map := none, status := some "0" } }) ∧
    (explore demoGraph stateIdleAtMap1).2.player.explored_maps =
      [map0] ++ [map1] :=
  ⟨(C2_update_exploring_resolves stateExploreDone).1 (by decide) rfl,
   (C2_update_exploring_resolves stateIdleAtMap1).2 demoGraph map1
     rfl (by decide) (by decide) (by decide)⟩

/-- Claim C8: in the reference scenario (start map density 10,
destination density 20, K = 1234, K2 = 1,000,000) the travel cost is
30/1234 hours, which is within a quarter second of 87.7 seconds, and the
travelling key is written with the whole-second value 87 as both payload
and expiry; the explore cost on the density-20 map is 20*1234/1,000,000
hours, within a quarter second of 88.9 seconds, and the exploring key is
written with 88 as payload and expiry. -/
theorem C8_scenario_durations :
    map0.calculate_travel_to map1 = 30 / 1234 ∧
    |(30 / 1234 : Rat) * 3600 - 877 / 10| < 1 / 4 ∧
    (travel_to demoGraph map1 stateIdleStart).1 = .ok () ∧
    (travel_to demoGraph map1 stateIdleStart).2.redis.travelling =
      some ("87", 87) ∧
    map1.calculate_explore = 20 * 1234 / 1000000 ∧
    |(20 * 1234 / 1000000 : Rat) * 3600 - 889 / 10| < 1 / 4 ∧
    (explore demoGraph stateIdleAtMap1).1 = .ok () ∧
    (explore demoGraph stateIdleAtMap1).2.redis.exploring =
      some ("88", 88) := by
  have hc1 : map0.calculate_travel_to map1 = 30 / 1234 := by
    norm_num [MapV.calculate_travel_to, map0, map1]
  have hc2 : map1.calculate_explore = 20 * 1234 / 1000000 := by
    norm_num [MapV.calculate_explore, map1]
  have h87 : pyInt (map0.calculate_travel_to map1 * 3600) = 87 := by
    rw [hc1, pyInt, if_pos (by norm_num)]
    norm_num [Int.floor_eq_iff]
  have h88 : pyInt (map1.calculate_explore * 3600) = 88 := by
    rw [hc2, pyInt, if_pos (by norm_num)]
    norm_num [Int.floor_eq_iff]
  have ht := travel_to_success demoGraph stateIdleStart map0 map1
    rfl (by decide) (by decide)
  have he := explore_success demoGraph stateIdleAtMap1 map1
    rfl (by decide) (by decide) (by decide)
  refine ⟨hc1, by rw [abs_sub_lt_iff]; constructor <;> norm_num,
          by rw [ht], ?_, hc2,
          by rw [abs_sub_lt_iff]; constructor <;> norm_num,
          by rw [he], ?_⟩
  · rw [ht]
    simp only [h87]
    rfl
  · rw [he]
    simp only [h88]
    rfl

/-- Claim C9 (counterexample): `Map` defines `__eq__` without defining
`__hash__`, so by the CPython data model its instances are unhashable —
there is no id-based hash, and Maps cannot be set members or dict keys
(the code keeps `nearby` and `explored_maps` as lists). -/
theorem C9_map_unhashable_counterexample :
    mapDefinesEq = true ∧ mapDefinesHash = false ∧
    pyClassHashable mapDefinesEq mapDefinesHash = false := by
  refine ⟨rfl, rfl, rfl⟩

/-- Claim C9 (amended): `Map.__eq__` compares two Maps exactly by `id`,
and two Maps with equal ids are interchangeable in the membership tests
the code actually performs (Python `in` over `Map` lists); but `Map` is
unhashable (it defines `__eq__` and no `__hash__`), so Maps are not
usable as set members or dictionary keys at all. -/
theorem C9_map_eq_by_id (a b : MapV) :
    (a.pyEq b = true ↔ a.id = b.id) ∧
    (a.id = b.id → ∀ l : List MapV,
      pyListContains l (some a) = pyListContains l (some b)) ∧
    pyClassHashable mapDefinesEq mapDefinesHash = false := by
  refine ⟨?_, ?_, rfl⟩
  · rw [show a.pyEq b = (b.id == a.id) from rfl, beq_iff_eq]
    exact eq_comm
  · intro h l
    show (l.any fun v => a.id == v.id) = l.any fun v => b.id == v.id
    rw [h]

theorem C9_map_eq_by_id_witness :
    (map1.pyEq { id := 1, name := "other", density := 5,
                 description := "copy" } = true ↔
      map1.id = (1 : Int)) ∧
    (map1.id = (1 : Int) → ∀ l : List MapV,
      pyListContains l (some map1) =
        pyListContains l (some { id := 1, name := "other", density := 5,
                                 description := "copy" })) ∧
    pyClassHashable mapDefinesEq mapDefinesHash = false :=
  C9_map_eq_by_id map1 { id := 1, name := "other", density := 5,
                         description := "copy" }

/-- Claim C10: for every successful `travel_to` or `explore`, the value
written to the activity key and used as its expiry is
`int(cost_in_hours * 3600)` — the fractional-hour cost converted to
seconds and truncated toward zero to a whole integer (`pyInt`, which
agrees with the floor for non-negative durations, third conjunct); the
payload is the decimal string of that same integer, so no
fractional-second TTL is ever written. -/
theorem C10_ttl_truncated (g : List MapV) (s : GState) (m dest : MapV)
    (hm : s.player.map = some m)
    (htr : ttlQ s.redis.travelling ≤ 0)
    (hex : ttlQ s.redis.exploring ≤ 0) :
    ((travel_to g dest s).1 = .ok () ∧
      (travel_to g dest s).2.redis.travelling =
        some (toString (pyInt (m.calculate_travel_to dest * 3600)),
              pyInt (m.calculate_travel_to dest * 3600))) ∧
    (pyListContains s.player.explored_maps (some m) = false →
      (explore g s).1 = .ok () ∧
      (explore g s).2.redis.exploring =
        some (toString (pyInt (m.calculate_explore * 3600)),
              pyInt (m.calculate_explore * 3600))) ∧
    (∀ q : Rat, 0 ≤ q → pyInt q = ⌊q⌋) := by
  have hmain := travel_to_success g s m dest hm htr hex
  refine ⟨⟨by rw [hmain], by rw [hmain]⟩, ?_, ?_⟩
  · intro hexp
    have hmain2 := explore_success g s m hm htr hex hexp
    exact ⟨by rw [hmain2], by rw [hmain2]⟩
  · intro q hq
    unfold pyInt
    rw [if_pos hq]

theorem C10_ttl_truncated_witness :
    ((travel_to demoGraph map1 stateIdleStart).1 = .ok () ∧
      (travel_to demoGraph map1 stateIdleStart).2.redis.travelling =
        some (toString (pyInt (map0.calculate_travel_to map1 * 3600)),
              pyInt (map0.calculate_travel_to map1 * 3600))) ∧
    (pyListContains stateIdleStart.player.explored_maps (some map0) = false →
      (explore demoGraph stateIdleStart).1 = .ok () ∧
      (explore demoGraph stateIdleStart).2.redis.exploring =
        some (toString (pyInt (map0.calculate_explore * 3600)),
              pyInt (map0.calculate_explore * 3600))) ∧
    (∀ q : Rat, 0 ≤ q → pyInt q = ⌊q⌋) :=
  C10_ttl_truncated demoGraph stateIdleStart map0 map1
    rfl (by decide) (by decide)

/-! ## Resolution idempotency (claim C6)

Branch equations for `update_travelling` / `update_exploring`, then the
idempotency theorem. -/

/-- Well-formedness used for idempotency: the in-memory pending
destination, when present, is a map of the graph (every `Map` object held
by a `Player` was handed out by the registry). -/
def nextMapConsistent (g : List MapV) (s : GState) : Prop :=
  ∀ m : MapV, s.player.next_map = some m →
    (resolve_map g (.byId m.id)).isSome = true

/-- The state predicate for "not currently active": both activity keys expired/absent, no pending
destination in memory or in the store, the `map` field set (constructor
invariant) and no stale Exploring status flag awaiting completion. -/
def noActivity (s : GState) : Prop :=
  ttlQ s.redis.travelling ≤ 0 ∧ ttlQ s.redis.exploring ≤ 0 ∧
  s.player.next_map = none ∧ s.redis.next_map = none ∧
  (∃ m : MapV, s.player.map = some m) ∧ s.player.status ≠ .exploring

theorem update_exploring_pos {s : GState}
    (h : 0 < ttlQ s.redis.exploring) :
    update_exploring s = (.ok none, s) := by
  unfold update_exploring
  rw [if_pos h]

theorem update_exploring_done {s : GState}
    (h : ¬ 0 < ttlQ s.redis.exploring)
    (h2 : (s.player.status == Status.exploring
        || PyVal.pyEq (pyOfKey s.redis.status) (.pyint 2)) = true) :
    update_exploring s =
      (.ok (some true),
       { s with
           player := { s.player with status := .idle },
           redis := { s.redis with status := some "0" } }) := by
  unfold update_exploring
  rw [if_neg h, if_pos h2]

theorem update_exploring_noop {s : GState}
    (h : ¬ 0 < ttlQ s.redis.exploring)
    (h2 : ¬ (s.player.status == Status.exploring
        || PyVal.pyEq (pyOfKey s.redis.status) (.pyint 2)) = true) :
    update_exploring s = (.ok none, s) := by
  unfold update_exploring
  rw [if_neg h, if_neg h2]

theorem update_exploring_idem (s : GState) :
    (update_exploring (update_exploring s).2).2 = (update_exploring s).2 := by
  by_cases h1 : 0 < ttlQ s.redis.exploring
  · rw [update_exploring_pos h1, update_exploring_pos h1]
  · by_cases h2 : (s.player.status == Status.exploring
        || PyVal.pyEq (pyOfKey s.redis.status) (.pyint 2)) = true
    · rw [update_exploring_done h1 h2]
      simp [update_exploring, h1, pyOfKey, PyVal.pyEq]
    · rw [update_exploring_noop h1 h2, update_exploring_noop h1 h2]

theorem update_travelling_pos_held (g : List MapV) {s : GState}
    {m m2 : MapV}
    (hm : s.player.map = some m)
    (ht : 0 < ttlQ s.redis.travelling)
    (hn : s.player.next_map = some m2) :
    update_travelling g s = (.ok none, s) := by
  simp only [update_travelling, is_travelling, travel_time, hm, hn,
             decide_eq_true ht]

theorem update_travelling_pos_lost (g : List MapV) {s : GState} {m : MapV}
    (hm : s.player.map = some m)
    (ht : 0 < ttlQ s.redis.travelling)
    (hn : s.player.next_map = none) :
    update_travelling g s =
      (.ok none,
       { s with player :=
          { s.player with
              next_map := get_map g (mapRefOfKey s.redis.next_map) } }) := by
  simp only [update_travelling, is_travelling, travel_time, hm, hn,
             decide_eq_true ht]

theorem update_travelling_resolve_mem (g : List MapV) {s : GState}
    {m m2 mr : MapV}
    (hm : s.player.map = some m)
    (ht : ¬ 0 < ttlQ s.redis.travelling)
    (hn : s.player.next_map = some m2)
    (hr : resolve_map g (.byId m2.id) = some mr) :
    update_travelling g s =
      (.ok (some true),
       { player :=
          { s.player with
              map := some mr,
              next_map := none,
              status := .idle },
         redis :=
          { s.redis with
              next_map := none,
              status := some "0" } }) := by
  simp only [update_travelling, is_travelling, travel_time, hm, hn, hr,
             decide_eq_false ht]

theorem update_travelling_resolve_key (g : List MapV) {s : GState}
    {m mr : MapV} {v : String}
    (hm : s.player.map = some m)
    (ht : ¬ 0 < ttlQ s.redis.travelling)
    (hn : s.player.next_map = none)
    (hk : s.redis.next_map = some v)
    (hr : resolve_map g (.byStr v) = some mr) :
    update_travelling g s =
      (.ok (some true),
       { player :=
          { s.player with
              map := some mr,
              next_map := none,
              status := .idle },
         redis :=
          { s.redis with
              next_map := none,
              status := some "0" } }) := by
  simp only [update_travelling, is_travelling, travel_time, hm, hn, hk,
             mapRefOfKey, hr, decide_eq_false ht]

theorem update_travelling_noop (g : List MapV) {s : GState} {m : MapV}
    (hm : s.player.map = some m)
    (ht : ¬ 0 < ttlQ s.redis.travelling)
    (hn : s.player.next_map = none)
    (hk : s.redis.next_map = none) :
    update_travelling g s = (.ok none, s) := by
  simp only [update_travelling, is_travelling, travel_time, hm, hn, hk,
             mapRefOfKey, decide_eq_false ht]

theorem update_travelling_fail_mem (g : List MapV) {s : GState}
    {m m2 : MapV}
    (hm : s.player.map = some m)
    (ht : ¬ 0 < ttlQ s.redis.travelling)
    (hn : s.player.next_map = some m2)
    (hr : resolve_map g (.byId m2.id) = none) :
    update_travelling g s =
      (.error .unknownMap,
       { s with player := { s.player with next_map := none } }) := by
  simp only [update_travelling, is_travelling, travel_time, hm, hn, hr,
             decide_eq_false ht]

theorem update_travelling_fail_key (g : List MapV) {s : GState}
    {m : MapV} {v : String}
    (hm : s.player.map = some m)
    (ht : ¬ 0 < ttlQ s.redis.travelling)
    (hn : s.player.next_map = none)
    (hk : s.redis.next_map = some v)
    (hr : resolve_map g (.byStr v) = none) :
    update_travelling g s =
      (.error .unknownMap,
       { s with player := { s.player with next_map := none } }) := by
  simp only [update_travelling, is_travelling, travel_time, hm, hn, hk,
             mapRefOfKey, hr, decide_eq_false ht]

theorem update_travelling_restore (g : List MapV) (s : GState) (m0 : MapV)
    (hm : s.player.map = none)
    (hres : resolve_map g (mapRefOfKey s.redis.next_map) = some m0) :
    update_travelling g s =
      update_travelling g { s with player := { s.player with map := some m0 } } := by
  unfold update_travelling is_travelling travel_time
  rw [hm, hres]

theorem update_travelling_idem_of_map_some (g : List MapV) (s : GState)
    (m : MapV) (hm : s.player.map = some m)
    (hc : nextMapConsistent g s) :
    (update_travelling g (update_travelling g s).2).2 =
      (update_travelling g s).2 := by
  by_cases ht : 0 < ttlQ s.redis.travelling
  · cases hn : s.player.next_map with
    | some m2 =>
      rw [update_travelling_pos_held g hm ht hn,
          update_travelling_pos_held g hm ht hn]
    | none =>
      rw [update_travelling_pos_lost g hm ht hn]
      cases hg : get_map g (mapRefOfKey s.redis.next_map) with
      | some mm =>
        simp [update_travelling, is_travelling, travel_time, hm,
              decide_eq_true ht]
      | none =>
        simp [update_travelling, is_travelling, travel_time, hm,
              decide_eq_true ht, hg]
  · cases hn : s.player.next_map with
    | some m2 =>
      obtain ⟨mr, hmr⟩ := Option.isSome_iff_exists.mp (hc m2 hn)
      rw [update_travelling_resolve_mem g hm ht hn hmr]
      simp [update_travelling, is_travelling, travel_time, mapRefOfKey,
            decide_eq_false ht]
    | none =>
      cases hk : s.redis.next_map with
      | none =>
        rw [update_travelling_noop g hm ht hn hk,
            update_travelling_noop g hm ht hn hk]
      | some v =>
        cases hr : resolve_map g (.byStr v) with
        | none =>
          rw [update_travelling_fail_key g hm ht hn hk hr]
          simp [update_travelling, is_travelling, travel_time, hm, hk, hr,
                mapRefOfKey, decide_eq_false ht]
        | some mr =>
          rw [update_travelling_resolve_key g hm ht hn hk hr]
          simp [update_travelling, is_travelling, travel_time, mapRefOfKey,
                decide_eq_false ht]

/-- Claim C6: resolution is idempotent — with no intervening state
change, a second `update_travelling` (under the well-formedness invariant
that a held destination comes from the graph) or `update_exploring`
leaves the state where the first left it, performing no further writes;
and on a player with no outstanding timer and nothing pending, both are
no-ops returning `None` ("not currently active"), not an error. -/
theorem C6_resolution_idempotent (g : List MapV) (s : GState)
    (hc : nextMapConsistent g s) :
    (update_travelling g (update_travelling g s).2).2 =
      (update_travelling g s).2 ∧
    (update_exploring (update_exploring s).2).2 = (update_exploring s).2 ∧
    (noActivity s →
      update_travelling g s = (.ok none, s) ∧
      update_exploring s = (.ok none, s)) := by
  refine ⟨?_, update_exploring_idem s, ?_⟩
  · cases hm : s.player.map with
    | some m => exact update_travelling_idem_of_map_some g s m hm hc
    | none =>
      cases hres : resolve_map g (mapRefOfKey s.redis.next_map) with
      | some m0 =>
        rw [update_travelling_restore g s m0 hm hres]
        refine update_travelling_idem_of_map_some g _ m0 rfl ?_
        intro m2 h2
        exact hc m2 h2
      | none =>
        have h1 : update_travelling g s = (.error .unknownMap, s) := by
          unfold update_travelling is_travelling travel_time
          rw [hm, hres]
        rw [h1, h1]
  · rintro ⟨htr, hex, hnmp, hnmk, ⟨m, hm⟩, hst⟩
    refine ⟨update_travelling_noop g hm (not_lt.mpr htr) hnmp hnmk, ?_⟩
    refine update_exploring_noop (not_lt.mpr hex) ?_
    intro hcontra
    rcases Bool.or_eq_true_iff.mp hcontra with h | h
    · exact hst (beq_iff_eq.mp h)
    · cases hsk : s.redis.status with
      | none => rw [hsk] at h; exact absurd h (by simp [pyOfKey, PyVal.pyEq])
      | some v => rw [hsk] at h; exact absurd h (by simp [pyOfKey, PyVal.pyEq])

theorem C6_resolution_idempotent_witness :
    (update_travelling demoGraph
        (update_travelling demoGraph stateTravelArrived).2).2 =
      (update_travelling demoGraph stateTravelArrived).2 ∧
    (update_exploring (update_exploring stateExploreDone).2).2 =
      (update_exploring stateExploreDone).2 ∧
    update_travelling demoGraph stateIdleStart = (.ok none, stateIdleStart) ∧
    update_exploring stateIdleStart = (.ok none, stateIdleStart) := by
  have hc1 : nextMapConsistent demoGraph stateTravelArrived := by
    intro m h
    rw [show stateTravelArrived.player.next_map = some map1 from rfl] at h
    cases h
    decide
  have hc2 : nextMapConsistent demoGraph stateIdleStart := by
    intro m h
    rw [show stateIdleStart.player.next_map = none from rfl] at h
    cases h
  have hc3 : nextMapConsistent demoGraph stateExploreDone := by
    intro m h
    rw [show stateExploreDone.player.next_map = none from rfl] at h
    cases h
  have hna : noActivity stateIdleStart :=
    ⟨by decide, by decide, rfl, rfl, ⟨map0, rfl⟩, by decide⟩
  exact ⟨(C6_resolution_idempotent demoGraph stateTravelArrived hc1).1,
         (C6_resolution_idempotent demoGraph stateExploreDone hc3).2.1,
         ((C6_resolution_idempotent demoGraph stateIdleStart hc2).2.2 hna).1,
         ((C6_resolution_idempotent demoGraph stateIdleStart hc2).2.2 hna).2⟩

end Adventure
